import Mathlib

/-!
Verification development for the poster-parlor order/review backend.

The definitions below are a shallow embedding of the TypeScript source:

* `OrdersService` (libs/orders: `isValidObjectId`, `validateOrderItems`,
  `createOrder`, `getOrderById`, `calculateShipping`, `calculateTax`),
* `CloudinaryService.uploadMultipleImages` / `deleteMultipleImages`
  (libs/inventory/cloudinary.service.ts),
* `ReviewService.createReview` / `deleteReview` (review service).

Monetary values are modelled as exact rationals (the source uses JS numbers
with an explicit 0.01 tolerance for every price comparison, so exact
rationals are an adequate model at this granularity).  The document store is
modelled as association lists keyed by id strings; MongoDB's `$inc` update is
modelled field-faithfully (incrementing a missing field creates it).
Fallible service methods return their state paired with an `Except` value:
on an error the returned state is the untouched input state exactly when the
source throws before any write.
-/

deriving instance DecidableEq for Except

namespace PosterParlor

/-- Character class of the regex `[0-9a-fA-F]` used by `isValidObjectId`. -/
def isHexChar (c : Char) : Bool :=
  (('0' ≤ c) && (c ≤ '9')) || (('a' ≤ c) && (c ≤ 'f')) || (('A' ≤ c) && (c ≤ 'F'))

/-- Models `OrdersService.isValidObjectId`: the id matches `/^[0-9a-fA-F]{24}$/`. -/
def isValidObjectId (id : String) : Bool :=
  id.length == 24 && id.toList.all isHexChar

/-- Models `Math.abs`, on exact rationals. -/
def ratAbs (x : ℚ) : ℚ := if x < 0 then -x else x

/-- JavaScript `Math.round x = ⌊x + 0.5⌋` for finite arguments (round half up,
ties toward positive infinity). -/
def jsRound (x : ℚ) : ℚ := ((Int.floor (x + 1/2) : ℤ) : ℚ)

/-- The `remoteStates` array of `OrdersService.calculateShipping`. -/
def remoteStates : List String := ["Jammu and Kashmir", "Arunachal Pradesh", "Ladakh"]

/-- Models `OrdersService.calculateShipping(subtotal, state)`: free above the 250
threshold, otherwise a flat 50 base fee; plus a 150 surcharge for remote
states. -/
def calculateShipping (subtotal : ℚ) (state : String) : ℚ :=
  let baseShipping : ℚ := 50
  let freeShippingThreshold : ℚ := 250
  let shipping : ℚ := if subtotal ≥ freeShippingThreshold then 0 else baseShipping
  let remoteCharge : ℚ := if state ∈ remoteStates then 150 else 0
  shipping + remoteCharge

/-- Models `OrdersService.calculateTax(subtotal)`: `Math.round(subtotal * 0.18)`. -/
def calculateTax (subtotal : ℚ) : ℚ := jsRound (subtotal * (18/100))

/-- Modelled from the spec's words (§4.2): round half-up to the nearest
currency unit. -/
def roundHalfUpSpec (x : ℚ) : ℚ := ((Int.floor (x + 1/2) : ℤ) : ℚ)

/-- Modelled from the spec's words (§4.2 and C5): flat base fee 50 waived at
subtotal 250 and above, plus a fixed 150 surcharge for the fixed remote-state
set. -/
def shippingSpec (subtotal : ℚ) (state : String) : ℚ :=
  (if subtotal ≥ 250 then 0 else 50) + (if state ∈ remoteStates then 150 else 0)

/-- Modelled from the spec's words (§4.2 and C5): an 18% tax on the subtotal,
rounded half-up, applied once to the whole subtotal. -/
def taxSpec (subtotal : ℚ) : ℚ := roundHalfUpSpec (subtotal * (18/100))

/-- A catalog record for a poster document; only the fields read by the order
flow are modelled.  `stock` is optional because the Mongoose schema does not
force it: the source guards the stock check with `poster.stock !== undefined`. -/
structure PosterRec where
  title : String
  price : ℚ
  stock : Option ℤ
deriving DecidableEq, Repr

/-- The poster collection, keyed by document id. -/
abbrev Catalog := List (String × PosterRec)

/-- Models `posterModel.findById(id)`: the record stored under the id, if any. -/
def findPoster : Catalog → String → Option PosterRec
  | [], _ => none
  | e :: rest, id => if e.1 == id then some e.2 else findPoster rest id

/-- Models `posterModel.findByIdAndUpdate(id, { $inc: { stock: delta } })`: MongoDB's
`$inc` increments the field atomically and unconditionally; on a document
where the field is missing it creates the field with value `delta`.  A missing
document is a no-op (the source ignores the returned value). -/
def applyIncStock : Catalog → String → ℤ → Catalog
  | [], _, _ => []
  | e :: rest, id, delta =>
    if e.1 == id then (e.1, { e.2 with stock := some (e.2.stock.getD 0 + delta) }) :: rest
    else e :: applyIncStock rest id delta

/-- One entry of `CreateOrderDto.items`; the same shape is used for the
validated items the service builds (price replaced by the catalog price). -/
structure OrderItem where
  posterId : String
  quantity : ℕ
  price : ℚ
deriving DecidableEq, Repr

/-- Typed rendering of the exceptions thrown by `OrdersService`; each
constructor carries the data interpolated into the source's message string. -/
inductive OrderError where
  | emptyOrder : OrderError
  | invalidIdFormat : OrderError
  | posterNotFound (posterId : String) : OrderError
  | insufficientStock (title : String) (available : ℤ) (requested : ℕ) : OrderError
  | priceMismatch (title : String) (expected received : ℚ) : OrderError
  | userNotFound : OrderError
  | paymentAmountMismatch (expected received : ℚ) : OrderError
deriving DecidableEq, Repr

/-- The guard `poster.stock !== undefined && poster.stock < item.quantity`:
an undefined stock never fails the check. -/
def stockShort (stock : Option ℤ) (quantity : ℕ) : Bool :=
  match stock with
  | none => false
  | some s => s < (quantity : ℤ)

/-- The per-item validation loop shared verbatim by
`OrdersService.validateOrderItems` and `OrdersService.createOrder`: look the
poster up, check existence, then stock sufficiency, then price agreement
within the 0.01 tolerance; accumulate the item re-priced with the catalog
price and the running subtotal.  The `insufficientStock` branch is reached
only when `stock` is defined, so `getD 0` reports exactly the stored stock. -/
def validateLoop (cat : Catalog) : List OrderItem → Except OrderError (List OrderItem × ℚ)
  | [] => .ok ([], 0)
  | item :: rest =>
    match findPoster cat item.posterId with
    | none => .error (.posterNotFound item.posterId)
    | some poster =>
      if stockShort poster.stock item.quantity then
        .error (.insufficientStock poster.title (poster.stock.getD 0) item.quantity)
      else if ratAbs (item.price - poster.price) > 1/100 then
        .error (.priceMismatch poster.title poster.price item.price)
      else
        match validateLoop cat rest with
        | .error e => .error e
        | .ok (vs, sub) =>
          .ok ({ posterId := item.posterId, quantity := item.quantity, price := poster.price } :: vs,
            poster.price * (item.quantity : ℚ) + sub)

/-- Models `OrdersService.validateOrderItems`: rejects an empty cart, then malformed
ids, then runs the per-item loop.  It only reads the poster collection and
returns no state: the method performs no writes. -/
def validateOrderItems (cat : Catalog) (items : List OrderItem) :
    Except OrderError (List OrderItem × ℚ) :=
  if items.isEmpty then .error .emptyOrder
  else if items.any (fun i => !isValidObjectId i.posterId) then .error .invalidIdFormat
  else validateLoop cat items

/-- Sum of `price * quantity` over a list of items. -/
def itemsSubtotal : List OrderItem → ℚ
  | [] => 0
  | i :: rest => i.price * (i.quantity : ℚ) + itemsSubtotal rest

/-- Boolean form of "this item passes all three per-item checks". -/
def itemOk (cat : Catalog) (i : OrderItem) : Bool :=
  match findPoster cat i.posterId with
  | none => false
  | some p => !stockShort p.stock i.quantity && decide (ratAbs (i.price - p.price) ≤ 1/100)

/-- The item as the loop re-prices it (catalog-confirmed price). -/
def repriceItem (cat : Catalog) (i : OrderItem) : OrderItem :=
  match findPoster cat i.posterId with
  | some p => { posterId := i.posterId, quantity := i.quantity, price := p.price }
  | none => i

/-- Subtotal of a list of items at catalog-confirmed prices. -/
def catalogSubtotal (cat : Catalog) (items : List OrderItem) : ℚ :=
  itemsSubtotal (items.map (repriceItem cat))

/-- Customer block of `CreateOrderDto` (all fields optional in the DTO). -/
structure CustomerDto where
  name : Option String
  email : Option String
  phone : Option String
deriving DecidableEq, Repr

/-- Payment details submitted with an order. -/
structure PaymentDetails where
  method : String
  transactionId : Option String
  amount : ℚ
deriving DecidableEq, Repr

/-- Shipping address; only the `state` field participates in the modelled
logic (it selects the remote-state surcharge). -/
structure ShippingAddress where
  state : String
deriving DecidableEq, Repr

/-- The `OrderStatus` enum of the models package. -/
inductive OrderStatus where
  | pending | processing | shipped | delivered | cancelled
deriving DecidableEq, Repr

/-- Models `CreateOrderDto` as consumed by `OrdersService.createOrder`.  Note that
the client may supply its own `shippingCost`, `taxAmount` and `totalPrice`;
the service uses them with `??` fallbacks. -/
structure CreateOrderDto where
  userId : Option String
  items : List OrderItem
  customer : Option CustomerDto
  shippingAddress : ShippingAddress
  paymentDetails : PaymentDetails
  status : Option OrderStatus
  isPaid : Option Bool
  shippingCost : Option ℚ
  taxAmount : Option ℚ
  totalPrice : Option ℚ
  notes : Option String
deriving DecidableEq, Repr

/-- Fields of a user document read by the order flow. -/
structure UserRec where
  name : String
  email : String
deriving DecidableEq, Repr

/-- The user collection, keyed by document id. -/
abbrev Users := List (String × UserRec)

/-- Models `userModel.findById(id)`. -/
def findUser : Users → String → Option UserRec
  | [], _ => none
  | e :: rest, id => if e.1 == id then some e.2 else findUser rest id

/-- Customer info persisted on an order. -/
structure CustomerInfo where
  userId : String
  name : String
  email : String
  phone : Option String
deriving DecidableEq, Repr

/-- JavaScript `a || b` for an optional string `a`: both `undefined` and the
empty string are falsy and select the fallback. -/
def jsOrStr (v : Option String) (fallback : String) : String :=
  match v with
  | some s => if s = "" then fallback else s
  | none => fallback

/-- The customer-info block of `createOrder`: for a logged-in user the user
document must exist, and order-specific customer fields override the profile
fields via JS `||`. -/
def customerInfoOf (users : Users) (d : CreateOrderDto) :
    Except OrderError (Option CustomerInfo) :=
  match d.userId with
  | none => .ok none
  | some uid =>
    match findUser users uid with
    | none => .error .userNotFound
    | some user =>
      .ok (some
        { userId := uid
          name := jsOrStr (d.customer.bind (·.name)) user.name
          email := jsOrStr (d.customer.bind (·.email)) user.email
          phone := d.customer.bind (·.phone) })

/-- A persisted order document, with the fields `createOrder` writes. -/
structure Order where
  customer : Option CustomerInfo
  items : List OrderItem
  shippingAddress : ShippingAddress
  paymentDetails : PaymentDetails
  status : OrderStatus
  isPaid : Bool
  shippingCost : ℚ
  taxAmount : ℚ
  totalPrice : ℚ
  notes : Option String
deriving DecidableEq, Repr

/-- Razorpay callback info optionally passed to `createOrder`. -/
structure PaymentInfo where
  razorpayPaymentId : Option String
  razorpayOrderId : Option String
deriving DecidableEq, Repr

/-- The database state: poster, user and order collections. -/
structure DB where
  posters : Catalog
  users : Users
  orders : List (String × Order)
deriving DecidableEq, Repr

/-- The id-format precondition of `createOrder`:
`(userId && !valid(userId)) || items.some(i => !valid(i.posterId))`. -/
def invalidIdsPresent (d : CreateOrderDto) : Bool :=
  (match d.userId with
   | some u => !isValidObjectId u
   | none => false)
  || d.items.any (fun i => !isValidObjectId i.posterId)

/-- The stock-update loop of `createOrder`: one unconditional `$inc` of
`-quantity` per validated item, in submission order. -/
def decrementStocks : Catalog → List OrderItem → Catalog
  | cat, [] => cat
  | cat, i :: rest => decrementStocks (applyIncStock cat i.posterId (-(i.quantity : ℤ))) rest

/-- Models `OrdersService.createOrder` (state-passing): id validation, the per-item
validation loop, customer lookup, pricing with `??` fallbacks to the
client-supplied values, the payment-amount check, persisting the order, and
finally the unconditional stock decrements.  `newOrderId` stands for the id
the store assigns on save; `paymentInfo` is the optional Razorpay info.  The
returned `DB` is the input state exactly when the source throws before its
first write. -/
def createOrder (db : DB) (newOrderId : String) (d : CreateOrderDto)
    (paymentInfo : Option PaymentInfo) : DB × Except OrderError Order :=
  if invalidIdsPresent d then (db, .error .invalidIdFormat)
  else
    match validateLoop db.posters d.items with
    | .error e => (db, .error e)
    | .ok (validatedItems, subtotal) =>
      match customerInfoOf db.users d with
      | .error e => (db, .error e)
      | .ok customerInfo =>
        let shippingCost :=
          d.shippingCost.getD (calculateShipping subtotal d.shippingAddress.state)
        let taxAmount := d.taxAmount.getD (calculateTax subtotal)
        let totalPrice := d.totalPrice.getD (subtotal + shippingCost + taxAmount)
        if ratAbs (d.paymentDetails.amount - totalPrice) > 1/100 then
          (db, .error (.paymentAmountMismatch totalPrice d.paymentDetails.amount))
        else
          let paymentDetails : PaymentDetails :=
            { d.paymentDetails with
              transactionId := some (jsOrStr (paymentInfo.bind (·.razorpayPaymentId))
                (jsOrStr d.paymentDetails.transactionId "")) }
          let order : Order :=
            { customer := customerInfo
              items := validatedItems
              shippingAddress := d.shippingAddress
              paymentDetails := paymentDetails
              status := d.status.getD .pending
              isPaid := d.isPaid.getD (!(d.paymentDetails.method == "COD"))
              shippingCost := shippingCost
              taxAmount := taxAmount
              totalPrice := totalPrice
              notes := d.notes }
          let dbSaved : DB := { db with orders := db.orders ++ [(newOrderId, order)] }
          let dbFinal : DB := { dbSaved with posters := decrementStocks dbSaved.posters validatedItems }
          (dbFinal, .ok order)

/-- Error type of the read-side order queries; these carry the message string
because C10 is about the indistinguishability of the messages. -/
inductive QueryError where
  | badRequest (message : String)
  | notFound (message : String)
deriving DecidableEq, Repr

/-- Models `orderModel.findById(id)`. -/
def findOrder : List (String × Order) → String → Option Order
  | [], _ => none
  | e :: rest, id => if e.1 == id then some e.2 else findOrder rest id

/-- Models `OrdersService.getOrderById(orderId, userId?)`: id-format check, lookup,
then the ownership check `if (userId && order.customer?.userId !== userId)`,
which on failure deliberately reuses the not-found message.  The `populate`
of poster display fields only shapes the response and is not modelled.  A JS
empty-string `userId` is falsy and skips the ownership check. -/
def getOrderById (db : DB) (orderId : String) (userId : Option String) :
    Except QueryError Order :=
  if !isValidObjectId orderId then .error (.badRequest "Invalid order ID format")
  else
    match findOrder db.orders orderId with
    | none => .error (.notFound ("Order with ID " ++ orderId ++ " not found"))
    | some order =>
      match userId with
      | some uid =>
        if uid ≠ "" ∧ order.customer.map (fun c => c.userId) ≠ some uid then
          .error (.notFound ("Order with ID " ++ orderId ++ " not found"))
        else .ok order
      | none => .ok order

/-- Phase of one in-flight `createOrder` request in the two-request
interleaving model.  Each request handles a single-item order for the same
poster (ids valid, prices matching, stock defined), so only the stock
dimension varies:

* `start → validated`: the validation read and stock check
  (`posterModel.findById` + `poster.stock < item.quantity`);
* `start → failed`: the same check observing insufficient stock
  (the InsufficientStock throw);
* `validated → committed`: `order.save()` followed by the unconditional
  `findByIdAndUpdate($inc stock: -quantity)` — the code performs the
  decrement with no condition on the current stock.

Save and decrement are bundled into one atomic step: this grants the code
more atomicity than the real store does, and the oversell still occurs. -/
inductive ReqPhase where
  | start | validated | committed | failed
deriving DecidableEq, Repr

/-- Shared state of the two-request interleaving model: the poster's stock,
the number of persisted order documents, and each request's phase. -/
structure ConcState where
  stock : ℤ
  ordersSaved : ℕ
  phase1 : ReqPhase
  phase2 : ReqPhase
deriving DecidableEq, Repr

/-- One atomic step of a single request with quantity `q`, given the shared
stock and order count. -/
def reqStep (stock : ℤ) (saved : ℕ) (q : ℕ) (ph : ReqPhase) : ℤ × ℕ × ReqPhase :=
  match ph with
  | .start => if stock < (q : ℤ) then (stock, saved, .failed) else (stock, saved, .validated)
  | .validated => (stock - (q : ℤ), saved + 1, .committed)
  | .committed => (stock, saved, .committed)
  | .failed => (stock, saved, .failed)

/-- Scheduler step: `true` advances request 1, `false` advances request 2. -/
def concStep (q1 q2 : ℕ) (s : ConcState) (which : Bool) : ConcState :=
  if which then
    let r := reqStep s.stock s.ordersSaved q1 s.phase1
    { s with stock := r.1, ordersSaved := r.2.1, phase1 := r.2.2 }
  else
    let r := reqStep s.stock s.ordersSaved q2 s.phase2
    { s with stock := r.1, ordersSaved := r.2.1, phase2 := r.2.2 }

/-- Run the two requests under a schedule (list of scheduler choices). -/
def concRun (q1 q2 : ℕ) (s : ConcState) : List Bool → ConcState
  | [] => s
  | w :: ws => concRun q1 q2 (concStep q1 q2 s w) ws

/-- Initial state: given stock, nothing persisted, both requests at start. -/
def concInit (stock : ℤ) : ConcState :=
  { stock := stock, ordersSaved := 0, phase1 := .start, phase2 := .start }

/-- The media store: the set of Cloudinary public ids currently stored. -/
abbrev MediaStore := List String

/-- Outcome of uploading one file through `CloudinaryService.uploadImage`:
either the upload succeeds and yields a public id, or it fails (rejected
stream / missing url, surfaced as CustomHttpException). -/
inductive FileUpload where
  | ok (publicId : String)
  | fail
deriving DecidableEq, Repr

/-- Whether a single upload fails. -/
def FileUpload.isFail : FileUpload → Bool
  | .ok _ => false
  | .fail => true

/-- Errors surfaced by the media/review flows. -/
inductive MediaError where
  | noFiles
  | uploadFailed
deriving DecidableEq, Repr

/-- Public ids of the uploads in a batch that succeed. -/
def uploadSuccesses (files : List FileUpload) : List String :=
  files.filterMap (fun f => match f with | .ok pid => some pid | .fail => none)

/-- Models `CloudinaryService.uploadMultipleImages` (cloudinary.service.ts 57-77):
rejects an empty batch, then runs every per-file upload under `Promise.all`.
Every upload that succeeds stores its image.  If any upload fails the method
rethrows a wrapped CustomHttpException; its catch block performs no
deletions, so the successful siblings stay in the store. -/
def uploadMultipleImages (store : MediaStore) (files : List FileUpload) :
    MediaStore × Except MediaError (List String) :=
  if files.isEmpty then (store, .error .noFiles)
  else
    let storeAfter : MediaStore := store ++ uploadSuccesses files
    if files.any FileUpload.isFail then (storeAfter, .error .uploadFailed)
    else (storeAfter, .ok (uploadSuccesses files))

/-- Models `CloudinaryService.deleteMultipleImages`: delete each public id
(idempotent; `not found` results are accepted). -/
def deleteMultipleImages (store : MediaStore) (publicIds : List String) : MediaStore :=
  store.filter (fun pid => !publicIds.contains pid)

/-- A review document; `images` holds the attached Cloudinary public ids. -/
structure ReviewRec where
  userId : String
  posterId : String
  images : List String
deriving DecidableEq, Repr

/-- The review collection, keyed by document id. -/
abbrev Reviews := List (String × ReviewRec)

/-- Models `reviewModel.findById(id)`. -/
def findReview : Reviews → String → Option ReviewRec
  | [], _ => none
  | e :: rest, id => if e.1 == id then some e.2 else findReview rest id

/-- Typed rendering of the exceptions thrown by `ReviewService`. -/
inductive ReviewError where
  | missingIds
  | invalidIdFormat
  | conflict
  | media (e : MediaError)
  | reviewMissing
  | forbidden
deriving DecidableEq, Repr

/-- The `UserRole` enum values used by the review flow. -/
inductive UserRole where
  | admin | customer
deriving DecidableEq, Repr

/-- Models `ReviewService.createReview`: parameter and id checks, the
one-review-per-product conflict check, then the upload batch and the insert.
In the source, `uploadResults` is initialised to `[]` and assigned only from
a *successful* `uploadMultipleImages` call; when that call throws, the catch
block sees `uploadResults.length === 0` and skips its cleanup, so the
partially uploaded files stay in the store.  The cleanup branch for a failed
insert is unreachable here because the modelled insert always succeeds. -/
def createReview (store : MediaStore) (reviews : Reviews) (newReviewId : String)
    (userId posterId : String) (files : List FileUpload) :
    MediaStore × Reviews × Except ReviewError ReviewRec :=
  if userId = "" ∨ posterId = "" then (store, reviews, .error .missingIds)
  else if !isValidObjectId userId || !isValidObjectId posterId then
    (store, reviews, .error .invalidIdFormat)
  else if reviews.any (fun e => e.2.userId == userId && e.2.posterId == posterId) then
    (store, reviews, .error .conflict)
  else if files.isEmpty then
    let review : ReviewRec := { userId := userId, posterId := posterId, images := [] }
    (store, reviews ++ [(newReviewId, review)], .ok review)
  else
    match uploadMultipleImages store files with
    | (storeAfter, .error e) => (storeAfter, reviews, .error (.media e))
    | (storeAfter, .ok refs) =>
      let review : ReviewRec := { userId := userId, posterId := posterId, images := refs }
      (storeAfter, reviews ++ [(newReviewId, review)], .ok review)

/-- Models `ReviewService.deleteReview`: id-format check, lookup, the
owner-or-admin authorisation check, then `findByIdAndDelete(reviewId)`.
The method issues no media deletions. -/
def deleteReview (store : MediaStore) (reviews : Reviews) (reviewId userId : String)
    (role : UserRole) : MediaStore × Reviews × Except ReviewError Unit :=
  if !isValidObjectId reviewId then (store, reviews, .error .invalidIdFormat)
  else
    match findReview reviews reviewId with
    | none => (store, reviews, .error .reviewMissing)
    | some existingReview =>
      if role ≠ UserRole.admin ∧ existingReview.userId ≠ userId then
        (store, reviews, .error .forbidden)
      else
        (store, reviews.filter (fun e => !(e.1 == reviewId)), .ok ())

/-- The C3 counterexample database: one poster priced 100 with stock 5. -/
def dbC3 : DB :=
  { posters := [("aaaaaaaaaaaaaaaaaaaaaaaa", { title := "A", price := 100, stock := some 5 })],
    users := [], orders := [] }

/-- The C3 counterexample payload: a guest order of 2 units at the catalog
price, but with client-supplied `shippingCost := 0`, `taxAmount := 0` and
`totalPrice := 1000`, and `payment.amount := 1000` matching the client total. -/
def dtoC3 : CreateOrderDto :=
  { userId := none,
    items := [{ posterId := "aaaaaaaaaaaaaaaaaaaaaaaa", quantity := 2, price := 100 }],
    customer := none, shippingAddress := { state := "Delhi" },
    paymentDetails := { method := "COD", transactionId := none, amount := 1000 },
    status := none, isPaid := none, shippingCost := some 0, taxAmount := some 0,
    totalPrice := some 1000, notes := none }

/-- The order document `createOrder` persists for `dtoC3`. -/
def orderC3val : Order :=
  { customer := none,
    items := [{ posterId := "aaaaaaaaaaaaaaaaaaaaaaaa", quantity := 2, price := 100 }],
    shippingAddress := { state := "Delhi" },
    paymentDetails := { method := "COD", transactionId := some "", amount := 1000 },
    status := .pending, isPaid := false, shippingCost := 0, taxAmount := 0,
    totalPrice := 1000, notes := none }

/-- The C3 witness payload: same order but with `totalPrice` omitted (the
client still supplies `shippingCost := 0` and `taxAmount := 0`, and the
matching payment amount). -/
def dtoW3 : CreateOrderDto :=
  { userId := none,
    items := [{ posterId := "aaaaaaaaaaaaaaaaaaaaaaaa", quantity := 2, price := 100 }],
    customer := none, shippingAddress := { state := "Delhi" },
    paymentDetails := { method := "COD", transactionId := none,
                        amount := (100 : ℚ) * ((2 : ℕ) : ℚ) + 0 + 0 + 0 },
    status := none, isPaid := none, shippingCost := some 0, taxAmount := some 0,
    totalPrice := none, notes := none }

/-- The C3 witness database. -/
def dbW3 : DB :=
  { posters := [("aaaaaaaaaaaaaaaaaaaaaaaa", { title := "A", price := 100, stock := some 5 })],
    users := [], orders := [] }

/-- The order document `createOrder` persists for `dtoW3`. -/
def orderW3val : Order :=
  { customer := none,
    items := [{ posterId := "aaaaaaaaaaaaaaaaaaaaaaaa", quantity := 2, price := 100 }],
    shippingAddress := { state := "Delhi" },
    paymentDetails := { method := "COD", transactionId := some "",
                        amount := (100 : ℚ) * ((2 : ℕ) : ℚ) + 0 + 0 + 0 },
    status := .pending, isPaid := false, shippingCost := 0, taxAmount := 0,
    totalPrice := (100 : ℚ) * ((2 : ℕ) : ℚ) + 0 + 0 + 0, notes := none }

/-- The C4 counterexample database: one poster priced 100 with stock 5. -/
def dbC4 : DB :=
  { posters := [("cccccccccccccccccccccccc", { title := "C", price := 100, stock := some 5 })],
    users := [], orders := [] }

/-- The C4 counterexample payload: no client shipping or tax, but a
client-supplied `totalPrice := 1000` with a matching `payment.amount := 1000`
— far from the server-computed total 286. -/
def dtoC4 : CreateOrderDto :=
  { userId := none,
    items := [{ posterId := "cccccccccccccccccccccccc", quantity := 2, price := 100 }],
    customer := none, shippingAddress := { state := "Delhi" },
    paymentDetails := { method := "COD", transactionId := none, amount := 1000 },
    status := none, isPaid := none, shippingCost := none, taxAmount := none,
    totalPrice := some 1000, notes := none }

/-- The order document `createOrder` persists for `dtoC4`. -/
def orderC4val : Order :=
  { customer := none,
    items := [{ posterId := "cccccccccccccccccccccccc", quantity := 2, price := 100 }],
    shippingAddress := { state := "Delhi" },
    paymentDetails := { method := "COD", transactionId := some "", amount := 1000 },
    status := .pending, isPaid := false,
    shippingCost := calculateShipping ((100 : ℚ) * ((2 : ℕ) : ℚ) + 0) "Delhi",
    taxAmount := calculateTax ((100 : ℚ) * ((2 : ℕ) : ℚ) + 0),
    totalPrice := 1000, notes := none }

/-- The C4 witness database (spec §8 second scenario). -/
def dbW4 : DB :=
  { posters := [("dddddddddddddddddddddddd", { title := "D", price := 100, stock := some 5 })],
    users := [], orders := [] }

/-- The C4 witness payload: the same order submitted with
`payment.amount := 280` against a server-computed total of 286. -/
def dtoW4 : CreateOrderDto :=
  { userId := none,
    items := [{ posterId := "dddddddddddddddddddddddd", quantity := 2, price := 100 }],
    customer := none, shippingAddress := { state := "Delhi" },
    paymentDetails := { method := "COD", transactionId := none, amount := 280 },
    status := none, isPaid := none, shippingCost := none, taxAmount := none,
    totalPrice := none, notes := none }

/-- Evaluation rule for `jsRound` at a known integer result. -/
theorem jsRound_eq_of (x : ℚ) (n : ℤ) (h1 : (n : ℚ) ≤ x + 1/2) (h2 : x + 1/2 < n + 1) :
    jsRound x = (n : ℚ) := by
  unfold jsRound
  rw [Int.floor_eq_iff.mpr ⟨h1, h2⟩]

/-- C5: the pricing helpers are pure functions; `calculateShipping` equals the
spec's formula (base fee 50 waived at the 250 free-shipping threshold, plus
150 for the fixed remote states), `calculateTax` equals round-half-up of 18%
of the subtotal applied once, and on the concrete scenario (subtotal 200,
non-remote state "Delhi") shipping is 50, tax is 36 and the total
subtotal + shipping + tax is 286. -/
theorem C5_pricing :
    (∀ s : ℚ, ∀ st : String, calculateShipping s st = shippingSpec s st) ∧
    (∀ s : ℚ, calculateTax s = taxSpec s) ∧
    calculateShipping 200 "Delhi" = 50 ∧
    calculateTax 200 = 36 ∧
    (200 : ℚ) + calculateShipping 200 "Delhi" + calculateTax 200 = 286 := by
  have hship : calculateShipping 200 "Delhi" = 50 := by
    have hmem : ¬ ("Delhi" ∈ remoteStates) := by decide
    norm_num [calculateShipping, hmem]
  have htax : calculateTax 200 = 36 := by
    unfold calculateTax
    rw [show (200 : ℚ) * (18/100) = 36 by norm_num]
    rw [jsRound_eq_of 36 36 (by norm_num) (by norm_num)]
    norm_num
  refine ⟨fun s st => rfl, fun s => rfl, hship, htax, ?_⟩
  rw [hship, htax]
  norm_num

theorem validateLoop_cons_of_ok (cat : Catalog) (i : OrderItem) (rest : List OrderItem)
    (h : itemOk cat i = true) :
    validateLoop cat (i :: rest) =
      (validateLoop cat rest).map
        (fun r => (repriceItem cat i :: r.1, (repriceItem cat i).price * (i.quantity : ℚ) + r.2)) := by
  unfold itemOk at h
  cases hf : findPoster cat i.posterId with
  | none => rw [hf] at h; exact Bool.noConfusion h
  | some p =>
    rw [hf] at h
    simp only [Bool.and_eq_true, Bool.not_eq_true', decide_eq_true_eq] at h
    have hstock : ¬ (stockShort p.stock i.quantity = true) := by
      rw [h.1]; exact Bool.false_ne_true
    have hrep : repriceItem cat i =
        { posterId := i.posterId, quantity := i.quantity, price := p.price } := by
      unfold repriceItem; rw [hf]
    rw [hrep]
    conv_lhs => rw [validateLoop]
    simp only [hf]
    rw [if_neg hstock, if_neg (not_lt.mpr h.2)]
    cases hr : validateLoop cat rest with
    | error e => rfl
    | ok r =>
      obtain ⟨vs0, s0⟩ := r
      rfl

theorem validateLoop_subtotal (cat : Catalog) (items : List OrderItem) :
    ∀ vs s, validateLoop cat items = .ok (vs, s) → itemsSubtotal vs = s := by
  induction items with
  | nil =>
    intro vs s h
    simp only [validateLoop, Except.ok.injEq, Prod.mk.injEq] at h
    rw [← h.1, ← h.2]
    rfl
  | cons i rest ih =>
    intro vs s h
    unfold validateLoop at h
    cases hf : findPoster cat i.posterId with
    | none =>
      simp only [hf] at h
      exact Except.noConfusion h
    | some p =>
      simp only [hf] at h
      by_cases hs : stockShort p.stock i.quantity = true
      · rw [if_pos hs] at h; exact absurd h (by simp)
      · rw [if_neg hs] at h
        by_cases hp : ratAbs (i.price - p.price) > 1/100
        · rw [if_pos hp] at h; exact absurd h (by simp)
        · rw [if_neg hp] at h
          cases hr : validateLoop cat rest with
          | error e => rw [hr] at h; exact absurd h (by simp)
          | ok r =>
            rw [hr] at h
            cases r with
            | mk vs0 s0 =>
              simp only [Except.ok.injEq, Prod.mk.injEq] at h
              have hsum := ih vs0 s0 (by rw [hr])
              rw [← h.1, ← h.2]
              simp [itemsSubtotal, hsum]

theorem findPoster_applyIncStock_self (cat : Catalog) (pid : String) (d : ℤ) (p : PosterRec)
    (h : findPoster cat pid = some p) :
    findPoster (applyIncStock cat pid d) pid =
      some { p with stock := some (p.stock.getD 0 + d) } := by
  induction cat with
  | nil => simp [findPoster] at h
  | cons e rest ih =>
    simp only [findPoster] at h
    simp only [applyIncStock]
    by_cases he : (e.1 == pid) = true
    · rw [if_pos he] at h
      rw [if_pos he]
      simp only [findPoster]
      rw [if_pos he]
      simp only [Option.some.injEq] at h
      rw [h]
    · rw [if_neg he] at h
      rw [if_neg he]
      simp only [findPoster]
      rw [if_neg he]
      exact ih h

/-- C1: the spec states the commit-time decrement is the atomic conditional
"decrement iff stock ≥ quantity", so that of two concurrent orders whose
combined quantity exceeds the stock exactly one commits, the other fails with
InsufficientStock, and stock never goes negative.  The source instead
validates with a plain read and then decrements unconditionally with `$inc`:
under the interleaving in which both requests pass validation before either
commits (stock 1, two orders of quantity 1), both requests commit, two order
documents are persisted, and the final stock is -1. -/
theorem C1_oversell_interleaving :
    concRun 1 1 (concInit 1) [true, false, true, false] =
      { stock := -1, ordersSaved := 2, phase1 := .committed, phase2 := .committed } := by
  decide

/-- C2: the spec states that a decrement failing at commit time triggers
compensation: already-decremented items are re-incremented, the persisted
order is deleted, and the attempt fails with InsufficientStock.  The source
has no conditional decrement and no compensation path: starting from stock 3
with two orders of quantity 2, after the first commit the remaining stock (1)
is below the second order's quantity, yet the second request still commits —
its order document stays persisted, no re-increment or deletion happens
anywhere in the model, and the stock ends at -1. -/
theorem C2_commit_without_compensation :
    (concRun 2 2 (concInit 3) [true, false, true]).stock = 1 ∧
    (concRun 2 2 (concInit 3) [true, false, true]).phase2 = .validated ∧
    (concRun 2 2 (concInit 3) [true, false, true]).stock < (2 : ℤ) ∧
    concRun 2 2 (concInit 3) [true, false, true, false] =
      { stock := -1, ordersSaved := 2, phase1 := .committed, phase2 := .committed } := by
  decide

/-- C7 (counterexample): a five-file batch whose third upload fails.  The
claim says zero files of the batch remain in the media store afterwards; in
the source `uploadMultipleImages` performs no cleanup on a partial failure
and `createReview`'s catch block sees an empty `uploadResults`, so the four
successful uploads remain stored. -/
theorem C7_counterexample :
    uploadMultipleImages []
        [.ok "img1", .ok "img2", .fail, .ok "img4", .ok "img5"] =
      (["img1", "img2", "img4", "img5"], .error .uploadFailed) ∧
    createReview [] [] "newReview" "0123456789abcdef01234567" "89abcdef0123456789abcdef"
        [.ok "img1", .ok "img2", .fail, .ok "img4", .ok "img5"] =
      (["img1", "img2", "img4", "img5"], [], .error (.media .uploadFailed)) := by
  decide

/-- C7 (amended): when any individual upload of a batch fails,
`uploadMultipleImages` surfaces the error without deleting the batch's
already-uploaded files: every successful upload of the batch remains in the
media store.  (Cleanup of a fully-successful batch happens only in the
review flow when a later step fails.) -/
theorem C7_amended_no_cleanup (store : MediaStore) (files : List FileUpload)
    (hfail : files.any FileUpload.isFail = true) :
    uploadMultipleImages store files =
      (store ++ uploadSuccesses files, .error .uploadFailed) := by
  have hne : files.isEmpty = false := by
    cases files with
    | nil => simp at hfail
    | cons f fs => rfl
  simp [uploadMultipleImages, hne, hfail]

theorem C7_amended_witness :
    uploadMultipleImages ["old"] [.ok "a", .fail] =
      (["old", "a"], .error .uploadFailed) := by
  rw [C7_amended_no_cleanup ["old"] [.ok "a", .fail] (by decide)]
  decide

/-- C8 (counterexample): deleting a review that owns the stored image
`"imgX"` removes the review document but leaves `"imgX"` in the media store:
`deleteReview` never calls the media-store deletion. -/
theorem C8_counterexample :
    deleteReview ["imgX"]
        [("abcabcabcabcabcabcabcabc",
          { userId := "fedcbafedcbafedcbafedcba", posterId := "89abcdef0123456789abcdef",
            images := ["imgX"] })]
        "abcabcabcabcabcabcabcabc" "fedcbafedcbafedcbafedcba" UserRole.customer =
      (["imgX"], [], .ok ()) := by
  decide

/-- C8 (amended): a successful `deleteReview` (valid id, review found, caller
is the owner or an admin) removes the review document and leaves the media
store untouched — none of the review's attached media refs are deleted. -/
theorem C8_amended_media_retained (store : MediaStore) (reviews : Reviews)
    (reviewId userId : String) (role : UserRole) (r : ReviewRec)
    (hvalid : isValidObjectId reviewId = true)
    (hfind : findReview reviews reviewId = some r)
    (hauth : role = UserRole.admin ∨ r.userId = userId) :
    deleteReview store reviews reviewId userId role =
      (store, reviews.filter (fun e => !(e.1 == reviewId)), .ok ()) := by
  have hnotauth : ¬ (role ≠ UserRole.admin ∧ r.userId ≠ userId) := by
    rcases hauth with h | h
    · intro hc; exact hc.1 h
    · intro hc; exact hc.2 h
  simp [deleteReview, hvalid, hfind, hnotauth]

theorem C8_amended_witness :
    deleteReview ["imgY"]
        [("abcabcabcabcabcabcabcab0",
          { userId := "fedcbafedcbafedcbafedcb0", posterId := "89abcdef0123456789abcdef",
            images := ["imgY"] })]
        "abcabcabcabcabcabcabcab0" "000000000000000000000000" UserRole.admin =
      (["imgY"], [], .ok ()) := by
  rw [C8_amended_media_retained ["imgY"]
    [("abcabcabcabcabcabcabcab0",
      { userId := "fedcbafedcbafedcbafedcb0", posterId := "89abcdef0123456789abcdef",
        images := ["imgY"] })]
    "abcabcabcabcabcabcabcab0" "000000000000000000000000" UserRole.admin
    { userId := "fedcbafedcbafedcbafedcb0", posterId := "89abcdef0123456789abcdef",
      images := ["imgY"] } (by decide) (by decide) (Or.inl rfl)]
  decide

/-- C10: for a valid order id and a non-empty requesting user id that is not
the order's owner, `getOrderById` produces the very same NotFound error —
same error kind and same message string — that it produces when no order
with that id exists at all, so a non-owner caller cannot distinguish an
order that belongs to someone else from an order that does not exist. -/
theorem C10_nonowner_indistinguishable (db1 db2 : DB) (orderId uid : String) (order : Order)
    (hvalid : isValidObjectId orderId = true)
    (huid : uid ≠ "")
    (hfound : findOrder db1.orders orderId = some order)
    (hown : order.customer.map (fun c => c.userId) ≠ some uid)
    (hmissing : findOrder db2.orders orderId = none) :
    getOrderById db1 orderId (some uid) =
      .error (.notFound ("Order with ID " ++ orderId ++ " not found")) ∧
    getOrderById db1 orderId (some uid) = getOrderById db2 orderId (some uid) := by
  have hv : (!isValidObjectId orderId) = false := by rw [hvalid]; rfl
  have h1 : getOrderById db1 orderId (some uid) =
      .error (.notFound ("Order with ID " ++ orderId ++ " not found")) := by
    unfold getOrderById
    simp only [hv, Bool.false_eq_true, if_false, hfound]
    rw [if_pos ⟨huid, hown⟩]
  have h2 : getOrderById db2 orderId (some uid) =
      .error (.notFound ("Order with ID " ++ orderId ++ " not found")) := by
    unfold getOrderById
    simp only [hv, Bool.false_eq_true, if_false, hmissing]
  exact ⟨h1, h1.trans h2.symm⟩

theorem C10_witness :
    getOrderById
        { posters := [], users := [],
          orders := [("abc123abc123abc123abc123",
            { customer := some { userId := "0000aaaa0000aaaa0000aaaa",
                                   name := "Owner",
                                   email := "owner@example.com", phone := none },
              items := [], shippingAddress := { state := "Delhi" },
              paymentDetails := { method := "COD", transactionId := some "", amount := 286 },
              status := .pending, isPaid := false, shippingCost := 50, taxAmount := 36,
              totalPrice := 286, notes := none })] }
        "abc123abc123abc123abc123" (some "1111bbbb1111bbbb1111bbbb") =
      .error (.notFound ("Order with ID " ++ "abc123abc123abc123abc123" ++ " not found")) ∧
    getOrderById
        { posters := [], users := [],
          orders := [("abc123abc123abc123abc123",
            { customer := some { userId := "0000aaaa0000aaaa0000aaaa",
                                   name := "Owner",
                                   email := "owner@example.com", phone := none },
              items := [], shippingAddress := { state := "Delhi" },
              paymentDetails := { method := "COD", transactionId := some "", amount := 286 },
              status := .pending, isPaid := false, shippingCost := 50, taxAmount := 36,
              totalPrice := 286, notes := none })] }
        "abc123abc123abc123abc123" (some "1111bbbb1111bbbb1111bbbb") =
      getOrderById { posters := [], users := [], orders := [] }
        "abc123abc123abc123abc123" (some "1111bbbb1111bbbb1111bbbb") :=
  C10_nonowner_indistinguishable
    { posters := [], users := [],
      orders := [("abc123abc123abc123abc123",
        { customer := some { userId := "0000aaaa0000aaaa0000aaaa",
                             name := "Owner",
                             email := "owner@example.com", phone := none },
          items := [], shippingAddress := { state := "Delhi" },
          paymentDetails := { method := "COD", transactionId := some "", amount := 286 },
          status := .pending, isPaid := false, shippingCost := 50, taxAmount := 36,
          totalPrice := 286, notes := none })] }
    { posters := [], users := [], orders := [] }
    "abc123abc123abc123abc123" "1111bbbb1111bbbb1111bbbb"
    { customer := some { userId := "0000aaaa0000aaaa0000aaaa",
                         name := "Owner",
                         email := "owner@example.com", phone := none },
      items := [], shippingAddress := { state := "Delhi" },
      paymentDetails := { method := "COD", transactionId := some "", amount := 286 },
      status := .pending, isPaid := false, shippingCost := 50, taxAmount := 36,
      totalPrice := 286, notes := none }
    (by decide) (by decide) rfl (by decide) rfl

/-- C9: when a poster document carries no stock value, the stock check in the
validation loop is skipped — `validateOrderItems` accepts the item for any
requested quantity — and a successful `createOrder` still applies the
unconditional `$inc` decrement to that poster, leaving its stock field at
`-quantity`. -/
theorem C9_undefined_stock (cat : Catalog) (users : Users)
    (orders : List (String × Order)) (oid pid title state : String) (price : ℚ) (q : ℕ)
    (hid : isValidObjectId pid = true)
    (hfind : findPoster cat pid = some { title := title, price := price, stock := none }) :
    validateOrderItems cat [{ posterId := pid, quantity := q, price := price }] =
      .ok ([{ posterId := pid, quantity := q, price := price }], price * (q : ℚ) + 0) ∧
    ∃ dbOut order,
      createOrder { posters := cat, users := users, orders := orders } oid
          { userId := none,
            items := [{ posterId := pid, quantity := q, price := price }],
            customer := none, shippingAddress := { state := state },
            paymentDetails := { method := "COD", transactionId := none,
                                amount := (price * (q : ℚ) + 0)
                                  + calculateShipping (price * (q : ℚ) + 0) state
                                  + calculateTax (price * (q : ℚ) + 0) },
            status := none, isPaid := none, shippingCost := none, taxAmount := none,
            totalPrice := none, notes := none } none = (dbOut, .ok order) ∧
      findPoster dbOut.posters pid =
        some { title := title, price := price, stock := some (-(q : ℤ)) } := by
  have hp : ¬ (ratAbs (price - price) > 1/100) := by
    rw [sub_self]
    unfold ratAbs
    norm_num
  have hloop : validateLoop cat [{ posterId := pid, quantity := q, price := price }] =
      .ok ([{ posterId := pid, quantity := q, price := price }], price * (q : ℚ) + 0) := by
    simp only [validateLoop, hfind, stockShort, Bool.false_eq_true, if_false]
    rw [if_neg hp]
  have hwrap : validateOrderItems cat [{ posterId := pid, quantity := q, price := price }] =
      validateLoop cat [{ posterId := pid, quantity := q, price := price }] := by
    unfold validateOrderItems
    have hany : (([{ posterId := pid, quantity := q, price := price }] : List OrderItem).any
        (fun i => !isValidObjectId i.posterId)) = false := by
      simp [hid]
    simp only [List.isEmpty_cons, Bool.false_eq_true, if_false, hany]
  have hids : invalidIdsPresent
      { userId := none,
        items := [{ posterId := pid, quantity := q, price := price }],
        customer := none, shippingAddress := { state := state },
        paymentDetails := { method := "COD", transactionId := none,
                            amount := (price * (q : ℚ) + 0)
                              + calculateShipping (price * (q : ℚ) + 0) state
                              + calculateTax (price * (q : ℚ) + 0) },
        status := none, isPaid := none, shippingCost := none, taxAmount := none,
        totalPrice := none, notes := none } = false := by
    simp [invalidIdsPresent, hid]
  have hpm : ¬ (ratAbs (((price * (q : ℚ) + 0)
      + calculateShipping (price * (q : ℚ) + 0) state
      + calculateTax (price * (q : ℚ) + 0))
      - ((price * (q : ℚ) + 0)
      + calculateShipping (price * (q : ℚ) + 0) state
      + calculateTax (price * (q : ℚ) + 0))) > 1/100) := by
    rw [sub_self]
    unfold ratAbs
    norm_num
  have hco : createOrder { posters := cat, users := users, orders := orders } oid
      { userId := none,
        items := [{ posterId := pid, quantity := q, price := price }],
        customer := none, shippingAddress := { state := state },
        paymentDetails := { method := "COD", transactionId := none,
                            amount := (price * (q : ℚ) + 0)
                              + calculateShipping (price * (q : ℚ) + 0) state
                              + calculateTax (price * (q : ℚ) + 0) },
        status := none, isPaid := none, shippingCost := none, taxAmount := none,
        totalPrice := none, notes := none } none =
      ({ posters := applyIncStock cat pid (-(q : ℤ)), users := users,
         orders := orders ++ [(oid,
           { customer := none,
             items := [{ posterId := pid, quantity := q, price := price }],
             shippingAddress := { state := state },
             paymentDetails := { method := "COD", transactionId := some "",
                                 amount := (price * (q : ℚ) + 0)
                                   + calculateShipping (price * (q : ℚ) + 0) state
                                   + calculateTax (price * (q : ℚ) + 0) },
             status := .pending, isPaid := false,
             shippingCost := calculateShipping (price * (q : ℚ) + 0) state,
             taxAmount := calculateTax (price * (q : ℚ) + 0),
             totalPrice := (price * (q : ℚ) + 0)
               + calculateShipping (price * (q : ℚ) + 0) state
               + calculateTax (price * (q : ℚ) + 0),
             notes := none })] },
       .ok { customer := none,
             items := [{ posterId := pid, quantity := q, price := price }],
             shippingAddress := { state := state },
             paymentDetails := { method := "COD", transactionId := some "",
                                 amount := (price * (q : ℚ) + 0)
                                   + calculateShipping (price * (q : ℚ) + 0) state
                                   + calculateTax (price * (q : ℚ) + 0) },
             status := .pending, isPaid := false,
             shippingCost := calculateShipping (price * (q : ℚ) + 0) state,
             taxAmount := calculateTax (price * (q : ℚ) + 0),
             totalPrice := (price * (q : ℚ) + 0)
               + calculateShipping (price * (q : ℚ) + 0) state
               + calculateTax (price * (q : ℚ) + 0),
             notes := none }) := by
    have hcod : (!("COD" == "COD")) = false := by decide
    unfold createOrder
    simp only [hids, Bool.false_eq_true, if_false, hloop, customerInfoOf, Option.getD_none,
      jsOrStr, Option.none_bind, decrementStocks, applyIncStock]
    rw [if_neg hpm, hcod]
  refine ⟨hwrap.trans hloop, _, _, hco, ?_⟩
  have hfp := findPoster_applyIncStock_self cat pid (-(q : ℤ))
    { title := title, price := price, stock := none } hfind
  simpa using hfp

theorem C9_witness :
    validateOrderItems
        [("abcdefabcdefabcdefabcdef", { title := "W", price := 100, stock := none })]
        [{ posterId := "abcdefabcdefabcdefabcdef", quantity := 7, price := 100 }] =
      .ok ([{ posterId := "abcdefabcdefabcdefabcdef", quantity := 7, price := 100 }],
        100 * ((7 : ℕ) : ℚ) + 0) ∧
    ∃ dbOut order,
      createOrder
          { posters := [("abcdefabcdefabcdefabcdef",
              { title := "W", price := 100, stock := none })],
            users := [], orders := [] } "order9"
          { userId := none,
            items := [{ posterId := "abcdefabcdefabcdefabcdef", quantity := 7, price := 100 }],
            customer := none, shippingAddress := { state := "Delhi" },
            paymentDetails := { method := "COD", transactionId := none,
                                amount := (100 * ((7 : ℕ) : ℚ) + 0)
                                  + calculateShipping (100 * ((7 : ℕ) : ℚ) + 0) "Delhi"
                                  + calculateTax (100 * ((7 : ℕ) : ℚ) + 0) },
            status := none, isPaid := none, shippingCost := none, taxAmount := none,
            totalPrice := none, notes := none } none = (dbOut, .ok order) ∧
      findPoster dbOut.posters "abcdefabcdefabcdefabcdef" =
        some { title := "W", price := 100, stock := some (-((7 : ℕ) : ℤ)) } :=
  C9_undefined_stock
    [("abcdefabcdefabcdefabcdef", { title := "W", price := 100, stock := none })]
    [] [] "order9" "abcdefabcdefabcdefabcdef" "W" "Delhi" 100 7 (by decide) rfl

/-- C3 (counterexample): the claim says the stored totalPrice of every
persisted order equals items + shipping + tax within 0.01 even for payloads
supplying their own totals.  For `dtoC3` (client totalPrice 1000, shipping 0,
tax 0, item subtotal 200) `createOrder` accepts and persists the order, and
the stored totalPrice differs from items + shipping + tax by 800. -/
theorem C3_counterexample :
    (createOrder dbC3 "order3" dtoC3 none).2 = .ok orderC3val ∧
    ratAbs (orderC3val.totalPrice
      - (itemsSubtotal orderC3val.items + orderC3val.shippingCost + orderC3val.taxAmount))
      > 1/100 := by
  have hids : invalidIdsPresent
      { userId := none,
        items := [{ posterId := "aaaaaaaaaaaaaaaaaaaaaaaa", quantity := 2, price := 100 }],
        customer := none, shippingAddress := { state := "Delhi" },
        paymentDetails := { method := "COD", transactionId := none, amount := 1000 },
        status := none, isPaid := none, shippingCost := some 0, taxAmount := some 0,
        totalPrice := some 1000, notes := none } = false := by decide
  have hbeq : ("aaaaaaaaaaaaaaaaaaaaaaaa" == "aaaaaaaaaaaaaaaaaaaaaaaa") = true := rfl
  have hstock : stockShort (some 5) 2 = false := by decide
  have hprice : ¬ (ratAbs ((100 : ℚ) - 100) > 1/100) := by
    rw [sub_self]; unfold ratAbs; norm_num
  have hloop : validateLoop
      [("aaaaaaaaaaaaaaaaaaaaaaaa", { title := "A", price := 100, stock := some 5 })]
      [{ posterId := "aaaaaaaaaaaaaaaaaaaaaaaa", quantity := 2, price := 100 }] =
      .ok ([{ posterId := "aaaaaaaaaaaaaaaaaaaaaaaa", quantity := 2, price := 100 }],
        (100 : ℚ) * ((2 : ℕ) : ℚ) + 0) := by
    simp only [validateLoop, findPoster, hbeq, if_true, hstock, Bool.false_eq_true, if_false]
    rw [if_neg hprice]
  have hpm : ¬ (ratAbs ((1000 : ℚ) - 1000) > 1/100) := by
    rw [sub_self]; unfold ratAbs; norm_num
  have hcust : customerInfoOf []
      { userId := none,
        items := [{ posterId := "aaaaaaaaaaaaaaaaaaaaaaaa", quantity := 2, price := 100 }],
        customer := none, shippingAddress := { state := "Delhi" },
        paymentDetails := { method := "COD", transactionId := none, amount := 1000 },
        status := none, isPaid := none, shippingCost := some 0, taxAmount := some 0,
        totalPrice := some 1000, notes := none } = .ok none := rfl
  constructor
  · unfold createOrder
    simp only [dbC3, dtoC3]
    simp only [hids, Bool.false_eq_true, if_false, hloop, Option.getD_some, Option.getD_none,
      hcust]
    rw [if_neg hpm]
    rfl
  · simp only [orderC3val, itemsSubtotal]
    unfold ratAbs
    norm_num

/-- C3 (amended): the invariant holds for every accepted payload that does
not supply its own `totalPrice`: the stored totalPrice then equals (exactly,
hence within 0.01) the sum of the stored items' `unitPrice * quantity` plus
the stored `shippingCost` plus the stored `taxAmount`.  Payloads supplying
`totalPrice` are persisted with the client value, which need not satisfy the
invariant. -/
theorem C3_amended (db : DB) (oid : String) (d : CreateOrderDto) (payInfo : Option PaymentInfo)
    (dbOut : DB) (order : Order)
    (hnone : d.totalPrice = none)
    (hok : createOrder db oid d payInfo = (dbOut, .ok order)) :
    order.totalPrice = itemsSubtotal order.items + order.shippingCost + order.taxAmount := by
  unfold createOrder at hok
  split at hok
  · simp at hok
  · split at hok
    · simp at hok
    · rename_i v s heqval
      split at hok
      · simp at hok
      · rename_i c heqcust
        simp only [hnone, Option.getD_none] at hok
        split at hok
        · simp at hok
        · rw [Prod.mk.injEq] at hok
          have hord := hok.2
          simp only [Except.ok.injEq] at hord
          subst hord
          have hsum := validateLoop_subtotal db.posters d.items v s heqval
          simp only [hsum]

theorem C3_amended_witness :
    orderW3val.totalPrice =
      itemsSubtotal orderW3val.items + orderW3val.shippingCost + orderW3val.taxAmount := by
  apply C3_amended dbW3 "order3w" dtoW3 none
    (createOrder dbW3 "order3w" dtoW3 none).1 orderW3val rfl
  have hids : invalidIdsPresent
      { userId := none,
        items := [{ posterId := "aaaaaaaaaaaaaaaaaaaaaaaa", quantity := 2, price := 100 }],
        customer := none, shippingAddress := { state := "Delhi" },
        paymentDetails := { method := "COD", transactionId := none,
                            amount := (100 : ℚ) * ((2 : ℕ) : ℚ) + 0 + 0 + 0 },
        status := none, isPaid := none, shippingCost := some 0, taxAmount := some 0,
        totalPrice := none, notes := none } = false := by decide
  have hbeq : ("aaaaaaaaaaaaaaaaaaaaaaaa" == "aaaaaaaaaaaaaaaaaaaaaaaa") = true := rfl
  have hstock : stockShort (some 5) 2 = false := by decide
  have hprice : ¬ (ratAbs ((100 : ℚ) - 100) > 1/100) := by
    rw [sub_self]; unfold ratAbs; norm_num
  have hloop : validateLoop
      [("aaaaaaaaaaaaaaaaaaaaaaaa", { title := "A", price := 100, stock := some 5 })]
      [{ posterId := "aaaaaaaaaaaaaaaaaaaaaaaa", quantity := 2, price := 100 }] =
      .ok ([{ posterId := "aaaaaaaaaaaaaaaaaaaaaaaa", quantity := 2, price := 100 }],
        (100 : ℚ) * ((2 : ℕ) : ℚ) + 0) := by
    simp only [validateLoop, findPoster, hbeq, if_true, hstock, Bool.false_eq_true, if_false]
    rw [if_neg hprice]
  have hpm : ¬ (ratAbs (((100 : ℚ) * ((2 : ℕ) : ℚ) + 0 + 0 + 0)
      - ((100 : ℚ) * ((2 : ℕ) : ℚ) + 0 + 0 + 0)) > 1/100) := by
    rw [sub_self]; unfold ratAbs; norm_num
  have hcust : customerInfoOf []
      { userId := none,
        items := [{ posterId := "aaaaaaaaaaaaaaaaaaaaaaaa", quantity := 2, price := 100 }],
        customer := none, shippingAddress := { state := "Delhi" },
        paymentDetails := { method := "COD", transactionId := none,
                            amount := (100 : ℚ) * ((2 : ℕ) : ℚ) + 0 + 0 + 0 },
        status := none, isPaid := none, shippingCost := some 0, taxAmount := some 0,
        totalPrice := none, notes := none } = .ok none := rfl
  have h2 : (createOrder dbW3 "order3w" dtoW3 none).2 = .ok orderW3val := by
    unfold createOrder
    simp only [dbW3, dtoW3]
    simp only [hids, Bool.false_eq_true, if_false, hloop, Option.getD_some, Option.getD_none,
      hcust]
    rw [if_neg hpm]
    rfl
  exact Prod.ext rfl h2

/-- C4 (counterexample): the payment amount 1000 differs from the
server-computed total 286 (= 200 + shipping 50 + tax 36) by far more than
0.01, yet `createOrder` accepts the payload (the check compares against the
client-supplied `totalPrice`), persists an order, and decrements the stock
from 5 to 3 — not a no-op. -/
theorem C4_counterexample :
    ratAbs ((1000 : ℚ)
      - (((100 : ℚ) * ((2 : ℕ) : ℚ) + 0)
        + calculateShipping ((100 : ℚ) * ((2 : ℕ) : ℚ) + 0) "Delhi"
        + calculateTax ((100 : ℚ) * ((2 : ℕ) : ℚ) + 0))) > 1/100 ∧
    (createOrder dbC4 "order4" dtoC4 none).2 = .ok orderC4val ∧
    (createOrder dbC4 "order4" dtoC4 none).1.posters =
      [("cccccccccccccccccccccccc", { title := "C", price := 100, stock := some 3 })] ∧
    (createOrder dbC4 "order4" dtoC4 none).1.orders ≠ [] := by
  have hsub : (100 : ℚ) * ((2 : ℕ) : ℚ) + 0 = 200 := by push_cast; norm_num
  have hmem : ¬ ("Delhi" ∈ remoteStates) := by decide
  have hship : calculateShipping 200 "Delhi" = 50 := by
    norm_num [calculateShipping, hmem]
  have htax : calculateTax 200 = 36 := by
    unfold calculateTax
    rw [show (200 : ℚ) * (18/100) = 36 by norm_num]
    rw [jsRound_eq_of 36 36 (by norm_num) (by norm_num)]
    norm_num
  have hids : invalidIdsPresent dtoC4 = false := by decide
  have hbeq : ("cccccccccccccccccccccccc" == "cccccccccccccccccccccccc") = true := rfl
  have hstock : stockShort (some 5) 2 = false := by decide
  have hprice : ¬ (ratAbs ((100 : ℚ) - 100) > 1/100) := by
    rw [sub_self]; unfold ratAbs; norm_num
  have hloop : validateLoop
      [("cccccccccccccccccccccccc", { title := "C", price := 100, stock := some 5 })]
      [{ posterId := "cccccccccccccccccccccccc", quantity := 2, price := 100 }] =
      .ok ([{ posterId := "cccccccccccccccccccccccc", quantity := 2, price := 100 }],
        (100 : ℚ) * ((2 : ℕ) : ℚ) + 0) := by
    simp only [validateLoop, findPoster, hbeq, if_true, hstock, Bool.false_eq_true, if_false]
    rw [if_neg hprice]
  have hpm : ¬ (ratAbs ((1000 : ℚ) - 1000) > 1/100) := by
    rw [sub_self]; unfold ratAbs; norm_num
  have hcust : customerInfoOf [] dtoC4 = .ok none := rfl
  have hco : createOrder dbC4 "order4" dtoC4 none =
      ({ posters := [("cccccccccccccccccccccccc",
           { title := "C", price := 100, stock := some ((5 : ℤ) + -((2 : ℕ) : ℤ)) })],
         users := [], orders := [("order4", orderC4val)] },
       .ok orderC4val) := by
    unfold createOrder
    simp only [dbC4, dtoC4] at hids hcust ⊢
    simp only [hids, Bool.false_eq_true, if_false, hloop, Option.getD_some, Option.getD_none,
      hcust]
    rw [if_neg hpm]
    rfl
  refine ⟨?_, ?_, ?_, ?_⟩
  · rw [hsub, hship, htax]
    unfold ratAbs
    norm_num
  · rw [hco]
  · rw [hco]
    norm_num
  · rw [hco]
    simp

/-- C4 (amended): the payment check compares against the effective total —
the client-supplied `totalPrice` when present, otherwise the server-computed
one.  When the payload supplies none of `shippingCost`, `taxAmount`,
`totalPrice`, a payment amount differing from the server-computed total
(validated subtotal + computed shipping + computed tax) by more than 0.01
makes `createOrder` fail with the payment-amount-mismatch error, leaving the
database untouched: no order record and no stock mutation. -/
theorem C4_amended (db : DB) (oid : String) (d : CreateOrderDto) (payInfo : Option PaymentInfo)
    (v : List OrderItem) (s : ℚ)
    (hshipn : d.shippingCost = none) (htaxn : d.taxAmount = none) (htotn : d.totalPrice = none)
    (hids : invalidIdsPresent d = false)
    (hval : validateLoop db.posters d.items = .ok (v, s))
    (hcust : ∃ c, customerInfoOf db.users d = .ok c)
    (hmis : ratAbs (d.paymentDetails.amount
      - (s + calculateShipping s d.shippingAddress.state + calculateTax s)) > 1/100) :
    createOrder db oid d payInfo =
      (db, .error (.paymentAmountMismatch
        (s + calculateShipping s d.shippingAddress.state + calculateTax s)
        d.paymentDetails.amount)) := by
  obtain ⟨c, hc⟩ := hcust
  unfold createOrder
  simp only [hids, Bool.false_eq_true, if_false, hval, hc, hshipn, htaxn, htotn,
    Option.getD_none]
  rw [if_pos hmis]

theorem C4_amended_witness :
    createOrder dbW4 "order4w" dtoW4 none =
      (dbW4, .error (.paymentAmountMismatch
        (((100 : ℚ) * ((2 : ℕ) : ℚ) + 0)
          + calculateShipping ((100 : ℚ) * ((2 : ℕ) : ℚ) + 0) "Delhi"
          + calculateTax ((100 : ℚ) * ((2 : ℕ) : ℚ) + 0))
        280)) := by
  have hsub : (100 : ℚ) * ((2 : ℕ) : ℚ) + 0 = 200 := by push_cast; norm_num
  have hmem : ¬ ("Delhi" ∈ remoteStates) := by decide
  have hship : calculateShipping 200 "Delhi" = 50 := by
    norm_num [calculateShipping, hmem]
  have htax : calculateTax 200 = 36 := by
    unfold calculateTax
    rw [show (200 : ℚ) * (18/100) = 36 by norm_num]
    rw [jsRound_eq_of 36 36 (by norm_num) (by norm_num)]
    norm_num
  have hbeq : ("dddddddddddddddddddddddd" == "dddddddddddddddddddddddd") = true := rfl
  have hstock : stockShort (some 5) 2 = false := by decide
  have hprice : ¬ (ratAbs ((100 : ℚ) - 100) > 1/100) := by
    rw [sub_self]; unfold ratAbs; norm_num
  have hloop : validateLoop dbW4.posters dtoW4.items =
      .ok ([{ posterId := "dddddddddddddddddddddddd", quantity := 2, price := 100 }],
        (100 : ℚ) * ((2 : ℕ) : ℚ) + 0) := by
    simp only [dbW4, dtoW4, validateLoop, findPoster, hbeq, if_true, hstock,
      Bool.false_eq_true, if_false]
    rw [if_neg hprice]
  have hmis : ratAbs (dtoW4.paymentDetails.amount
      - (((100 : ℚ) * ((2 : ℕ) : ℚ) + 0)
        + calculateShipping ((100 : ℚ) * ((2 : ℕ) : ℚ) + 0) dtoW4.shippingAddress.state
        + calculateTax ((100 : ℚ) * ((2 : ℕ) : ℚ) + 0))) > 1/100 := by
    show ratAbs ((280 : ℚ)
      - (((100 : ℚ) * ((2 : ℕ) : ℚ) + 0)
        + calculateShipping ((100 : ℚ) * ((2 : ℕ) : ℚ) + 0) "Delhi"
        + calculateTax ((100 : ℚ) * ((2 : ℕ) : ℚ) + 0))) > 1/100
    rw [hsub, hship, htax]
    unfold ratAbs
    norm_num
  have h := C4_amended dbW4 "order4w" dtoW4 none
    [{ posterId := "dddddddddddddddddddddddd", quantity := 2, price := 100 }]
    ((100 : ℚ) * ((2 : ℕ) : ℚ) + 0)
    rfl rfl rfl (by decide) hloop ⟨none, rfl⟩ hmis
  exact h

theorem repriceItem_quantity (cat : Catalog) (i : OrderItem) :
    (repriceItem cat i).quantity = i.quantity := by
  unfold repriceItem
  cases findPoster cat i.posterId with
  | none => rfl
  | some p => rfl

theorem validateLoop_all_ok (cat : Catalog) (items : List OrderItem)
    (h : items.all (itemOk cat) = true) :
    validateLoop cat items = .ok (items.map (repriceItem cat), catalogSubtotal cat items) := by
  induction items with
  | nil => rfl
  | cons i rest ih =>
    simp only [List.all_cons, Bool.and_eq_true] at h
    rw [validateLoop_cons_of_ok cat i rest h.1, ih h.2]
    simp only [Except.map, List.map_cons, catalogSubtotal, itemsSubtotal,
      repriceItem_quantity]

theorem validateLoop_append_error (cat : Catalog) (pre : List OrderItem)
    (hpre : pre.all (itemOk cat) = true) (l : List OrderItem) (e : OrderError)
    (hl : validateLoop cat l = .error e) :
    validateLoop cat (pre ++ l) = .error e := by
  induction pre with
  | nil => simpa using hl
  | cons i pre ih =>
    simp only [List.all_cons, Bool.and_eq_true] at hpre
    rw [List.cons_append, validateLoop_cons_of_ok cat i (pre ++ l) hpre.1, ih hpre.2]
    rfl

theorem validateOrderItems_run (cat : Catalog) (items : List OrderItem)
    (hne : items ≠ [])
    (hids : items.all (fun j => isValidObjectId j.posterId) = true) :
    validateOrderItems cat items = validateLoop cat items := by
  unfold validateOrderItems
  have h1 : items.isEmpty = false := by
    cases items with
    | nil => exact absurd rfl hne
    | cons a l => rfl
  have h2 : (items.any fun j => !isValidObjectId j.posterId) = false := by
    rw [Bool.eq_false_iff]
    intro hcontra
    obtain ⟨x, hx, hbad⟩ := List.any_eq_true.mp hcontra
    exact absurd (List.all_eq_true.mp hids x hx) (by simpa using hbad)
  simp only [h1, Bool.false_eq_true, if_false, h2]

/-- C6 (amended): order-item validation is a pure read whose outcome is
decided by the first offending item in submission order.  For a non-empty
list with well-formed ids: if every item passes every check, it returns the
items re-priced with the catalog prices and the summed subtotal; otherwise
the error is the one raised for the first offending item — NotFound when its
product is missing, InsufficientStock (reporting the stored available stock
and the requested quantity) when its quantity exceeds a defined stock, and
PriceMismatch when its client price is off by more than 0.01 — regardless of
what is wrong with later items. -/
theorem C6_validation (cat : Catalog) :
    (∀ items : List OrderItem, items ≠ [] →
      items.all (fun j => isValidObjectId j.posterId) = true →
      items.all (itemOk cat) = true →
      validateOrderItems cat items =
        .ok (items.map (repriceItem cat), catalogSubtotal cat items)) ∧
    (∀ pre rest : List OrderItem, ∀ i : OrderItem,
      (pre ++ i :: rest).all (fun j => isValidObjectId j.posterId) = true →
      pre.all (itemOk cat) = true →
      ((findPoster cat i.posterId = none →
        validateOrderItems cat (pre ++ i :: rest) = .error (.posterNotFound i.posterId)) ∧
      (∀ p s, findPoster cat i.posterId = some p → p.stock = some s → s < (i.quantity : ℤ) →
        validateOrderItems cat (pre ++ i :: rest) =
          .error (.insufficientStock p.title s i.quantity)) ∧
      (∀ p, findPoster cat i.posterId = some p → stockShort p.stock i.quantity = false →
        ratAbs (i.price - p.price) > 1/100 →
        validateOrderItems cat (pre ++ i :: rest) =
          .error (.priceMismatch p.title p.price i.price)))) := by
  constructor
  · intro items hne hids hok
    rw [validateOrderItems_run cat items hne hids]
    exact validateLoop_all_ok cat items hok
  · intro pre rest i hids hpre
    have hne : pre ++ i :: rest ≠ [] := by
      cases pre with
      | nil => simp
      | cons a l => simp
    have hrun := validateOrderItems_run cat (pre ++ i :: rest) hne hids
    refine ⟨?_, ?_, ?_⟩
    · intro hfind
      rw [hrun]
      refine validateLoop_append_error cat pre hpre (i :: rest) _ ?_
      simp only [validateLoop, hfind]
    · intro p s hfind hstock hlt
      rw [hrun]
      refine validateLoop_append_error cat pre hpre (i :: rest) _ ?_
      have hshort : stockShort p.stock i.quantity = true := by
        rw [hstock]
        simpa [stockShort] using hlt
      simp only [validateLoop, hfind]
      rw [if_pos hshort, hstock]
      rfl
    · intro p hfind hshort hgt
      rw [hrun]
      refine validateLoop_append_error cat pre hpre (i :: rest) _ ?_
      simp only [validateLoop, hfind, hshort, Bool.false_eq_true, if_false]
      rw [if_pos hgt]

/-- C6 (counterexample): the claim requires NotFound whenever any submitted
product id has no matching product.  Here the second item's product is
missing, but the first item carries a mistaken price, and validation reports
PriceMismatch — the per-item loop stops at the first offending item. -/
theorem C6_counterexample :
    findPoster
      [("ffffffffffffffffffffffff", { title := "A", price := 100, stock := some 5 })]
      "abababababababababababab" = none ∧
    validateOrderItems
      [("ffffffffffffffffffffffff", { title := "A", price := 100, stock := some 5 })]
      [{ posterId := "ffffffffffffffffffffffff", quantity := 1, price := 50 },
       { posterId := "abababababababababababab", quantity := 1, price := 100 }] =
      .error (.priceMismatch "A" 100 50) := by
  have hbeq : ("ffffffffffffffffffffffff" == "ffffffffffffffffffffffff") = true := rfl
  have hstock : stockShort (some 5) 1 = false := by decide
  have hgt : ratAbs ((50 : ℚ) - 100) > 1/100 := by
    unfold ratAbs
    norm_num
  refine ⟨rfl, ?_⟩
  unfold validateOrderItems
  have h2 : (([{ posterId := "ffffffffffffffffffffffff", quantity := 1, price := 50 },
      { posterId := "abababababababababababab", quantity := 1, price := 100 }] :
        List OrderItem).any fun j => !isValidObjectId j.posterId) = false := by decide
  simp only [List.isEmpty_cons, Bool.false_eq_true, if_false, h2]
  simp only [validateLoop, findPoster, hbeq, if_true, hstock, Bool.false_eq_true, if_false]
  rw [if_pos hgt]

theorem C6_witness :
    validateOrderItems
      [("eeeeeeeeeeeeeeeeeeeeeeee", { title := "E", price := 100, stock := some 5 })]
      [{ posterId := "eeeeeeeeeeeeeeeeeeeeeeee", quantity := 2, price := 100 }] =
      .ok (([{ posterId := "eeeeeeeeeeeeeeeeeeeeeeee", quantity := 2, price := 100 }] :
          List OrderItem).map
          (repriceItem [("eeeeeeeeeeeeeeeeeeeeeeee",
            { title := "E", price := 100, stock := some 5 })]),
        catalogSubtotal [("eeeeeeeeeeeeeeeeeeeeeeee",
            { title := "E", price := 100, stock := some 5 })]
          [{ posterId := "eeeeeeeeeeeeeeeeeeeeeeee", quantity := 2, price := 100 }]) := by
  have hP : ratAbs ((100 : ℚ) - 100) ≤ 1/100 := by
    rw [sub_self]; unfold ratAbs; norm_num
  have hbeq : ("eeeeeeeeeeeeeeeeeeeeeeee" == "eeeeeeeeeeeeeeeeeeeeeeee") = true := rfl
  have hok : (([{ posterId := "eeeeeeeeeeeeeeeeeeeeeeee", quantity := 2, price := 100 }] :
      List OrderItem).all
      (itemOk [("eeeeeeeeeeeeeeeeeeeeeeee", { title := "E", price := 100, stock := some 5 })]))
      = true := by
    simp only [List.all_cons, List.all_nil, Bool.and_true]
    unfold itemOk
    simp only [findPoster, hbeq, if_true]
    have hs : stockShort (some 5) 2 = false := by decide
    rw [hs]
    simp only [Bool.not_false, Bool.true_and, decide_eq_true_eq]
    rw [sub_self]
    unfold ratAbs
    norm_num
  exact (C6_validation
      [("eeeeeeeeeeeeeeeeeeeeeeee", { title := "E", price := 100, stock := some 5 })]).1
    [{ posterId := "eeeeeeeeeeeeeeeeeeeeeeee", quantity := 2, price := 100 }]
    (by decide) (by decide) hok

end PosterParlor
